import Mathlib

/- Shallow embedding of the atlas-dashboard rendering script (`scripts/atlas.js`):
the status classifier, the indicator-value formatter, the overall-status renderer,
the narrative paragraph splitting, and the archive infinite-scroll pager.
JS numbers are modelled as rationals, JS strings as Lean strings (code points;
the UTF-16 surrogate-pair regex of the source is translated to the code-point
ranges it matches on well-formed strings), nullable fields as `Option`, and a
thrown `TypeError` as `Except.error`. -/

/- ### JS string primitives -/

/-- Whitespace set recognized by the JS `String.prototype.trim`. -/
def isJsWhitespace (c : Char) : Bool :=
  decide ((0x9 ≤ c.toNat ∧ c.toNat ≤ 0xd) ∨ c.toNat = 0x20 ∨ c.toNat = 0xa0 ∨
    c.toNat = 0x1680 ∨ (0x2000 ≤ c.toNat ∧ c.toNat ≤ 0x200a) ∨ c.toNat = 0x2028 ∨
    c.toNat = 0x2029 ∨ c.toNat = 0x202f ∨ c.toNat = 0x205f ∨ c.toNat = 0x3000 ∨
    c.toNat = 0xfeff)

/-- List-level trim: drop leading and trailing JS whitespace. -/
def jsTrimList (l : List Char) : List Char :=
  ((l.dropWhile isJsWhitespace).reverse.dropWhile isJsWhitespace).reverse

/-- JS `s.trim()`. -/
def jsTrim (s : String) : String := String.mk (jsTrimList s.data)

/-- Code points removed by the emoji-stripping regex
`/(©|®|[ -㌀]|\ud83c[퀀-\udfff]|\ud83d[퀀-\udfff]|\ud83e[퀀-\udfff])/g`
of `renderOverallStatus` / `initializeNarrativePage` / `renderArchivePosts`.
On well-formed strings the three surrogate-pair alternatives match exactly the
code points U+1F000-U+1F3FF, U+1F400-U+1F7FF and U+1F800-U+1FBFF. -/
def isStrippedEmojiChar (c : Char) : Bool :=
  decide (c.toNat = 0xa9 ∨ c.toNat = 0xae ∨ (0x2000 ≤ c.toNat ∧ c.toNat ≤ 0x3300) ∨
    (0x1f000 ≤ c.toNat ∧ c.toNat ≤ 0x1f3ff) ∨ (0x1f400 ≤ c.toNat ∧ c.toNat ≤ 0x1f7ff) ∨
    (0x1f800 ≤ c.toNat ∧ c.toNat ≤ 0x1fbff))

/-- JS `s.replace(emojiRegex, '')`: delete every matched glyph. -/
def stripEmoji (s : String) : String :=
  String.mk (s.data.filter (fun c => !(isStrippedEmojiChar c)))

/-- Worker for `splitOnList`: structural recursion on a fuel bound (any fuel at
least the length of the list gives the split; the fuel-exhausted arm is never
reached then). -/
def splitOnListAux (c0 : Char) (sepRest : List Char) : ℕ → List Char → List (List Char)
  | _, [] => [[]]
  | 0, l => [l]
  | fuel + 1, c :: rest =>
    if (c0 :: sepRest).isPrefixOf (c :: rest) then
      [] :: splitOnListAux c0 sepRest fuel (rest.drop sepRest.length)
    else
      match splitOnListAux c0 sepRest fuel rest with
      | [] => [[c]]
      | g :: gs => (c :: g) :: gs

/-- JS `s.split(sep)` for a non-empty separator `c0 :: sepRest`, on char lists:
each separator occurrence (leftmost, non-overlapping) starts a new group. -/
def splitOnList (c0 : Char) (sepRest : List Char) (l : List Char) : List (List Char) :=
  splitOnListAux c0 sepRest l.length l

/-- JS `s.split(sep)`. -/
def jsSplit (sep : String) (s : String) : List String :=
  match sep.data with
  | [] => s.data.map (fun c => String.mk [c])
  | c :: cs => (splitOnList c cs s.data).map String.mk

/-- JS `opt ?? d` / interpolation of a possibly-undefined string:
an absent string interpolates as `"undefined"`. -/
def jsStr (o : Option String) : String := o.getD "undefined"

/-- JS `opt || d` on a nullable string: `null`/`undefined`/`""` fall to `d`. -/
def jsOr (o : Option String) (d : String) : String :=
  match o with
  | some s => if s = "" then d else s
  | none => d

/-- JS `a || b` on nullable strings, keeping the option. -/
def jsOrOpt (a b : Option String) : Option String :=
  match a with
  | some s => if s = "" then b else some s
  | none => b

/- ### 1. Status and color mapping utility (`getStatusDetails`, atlas.js lines 4-77) -/

/-- The presentation tuple returned by `getStatusDetails`. -/
structure StatusDetails where
  color : String
  icon : String
  badge : String
  narrativeBadge : String
deriving DecidableEq, Repr

/-- The neutral gray tuple returned for absent input (atlas.js lines 7-12). -/
def defaultStatusDetails : StatusDetails :=
  { color := "bg-gray-400 text-white border-gray-500"
    icon := "⚪"
    badge := "bg-gray-100 text-gray-800"
    narrativeBadge := "bg-gray-400" }

/-- Modelled from the spec: the `default` arm of the `switch` in
`getStatusDetails` is missing from `src/scripts/atlas.js` — the file breaks off
right after the `GREEN` case, before the `switch` and the arrow function are
closed (lines 74-77 are blank where the tail belongs). Spec section 4.1 states
the classifier is "a deterministic, total function over a closed set of known
labels plus a default unknown tuple for anything unrecognized", rendered as
"a neutral gray N/A tuple", so the missing arm returns the same gray tuple as
the absent-input guard. -/
def statusSwitchDefault : StatusDetails := defaultStatusDetails

/-- The seven recognized labels of the `switch` (atlas.js lines 18-73). -/
def recognizedStatusLabels : List String :=
  ["🔴 FULL-STORM (EXTREME RISK)", "🟠 SEVERE RISK (HIGH RISK)",
   "🟡 ELEVATED RISK (MODERATE RISK)", "🟢 MONITOR (LOW RISK)",
   "RED", "AMBER", "GREEN"]

/-- The `switch (status.trim())` body of `getStatusDetails` (atlas.js lines 15-73),
applied to the already-trimmed string. -/
def statusSwitch (t : String) : StatusDetails :=
  if t = "🔴 FULL-STORM (EXTREME RISK)" then
    { color := "bg-red-800 text-white border-red-900", icon := "🔴"
      badge := "bg-red-100 text-red-800", narrativeBadge := "bg-red-800" }
  else if t = "🟠 SEVERE RISK (HIGH RISK)" then
    { color := "bg-orange-600 text-white border-orange-700", icon := "🟠"
      badge := "bg-orange-100 text-orange-800", narrativeBadge := "bg-orange-600" }
  else if t = "🟡 ELEVATED RISK (MODERATE RISK)" then
    { color := "bg-amber-500 text-black border-amber-600", icon := "🟡"
      badge := "bg-amber-100 text-amber-800", narrativeBadge := "bg-amber-500" }
  else if t = "🟢 MONITOR (LOW RISK)" then
    { color := "bg-green-600 text-white border-green-700", icon := "🟢"
      badge := "bg-green-100 text-green-800", narrativeBadge := "bg-green-600" }
  else if t = "RED" then
    { color := "text-red-700", icon := "red"
      badge := "bg-red-100 text-red-800", narrativeBadge := "bg-red-600" }
  else if t = "AMBER" then
    { color := "text-amber-700", icon := "amber"
      badge := "bg-amber-100 text-amber-800", narrativeBadge := "bg-amber-500" }
  else if t = "GREEN" then
    { color := "text-green-700", icon := "green"
      badge := "bg-green-100 text-green-800", narrativeBadge := "bg-green-600" }
  else statusSwitchDefault

/-- `getStatusDetails` (atlas.js lines 4-77): `null`/`undefined`/`""` are falsy
and take the guard; otherwise the trimmed string is dispatched by the switch. -/
def getStatusDetails : Option String → StatusDetails
  | none => defaultStatusDetails
  | some status => if status = "" then defaultStatusDetails else statusSwitch (jsTrim status)

/- ### JS number formatting over exact rationals -/

/-- Left-pad a digit string with zeros to width `d`. -/
def padZeros (s : String) (d : ℕ) : String :=
  String.mk (List.replicate (d - s.length) '0') ++ s

/-- Render the integer `n` as a fixed-point decimal with `d` fractional digits
(`n` is the value scaled by `10 ^ d`). -/
def decimalString (n : ℤ) (d : ℕ) : String :=
  let a := n.natAbs
  let sign := if n < 0 then "-" else ""
  if d = 0 then sign ++ toString a
  else sign ++ toString (a / 10 ^ d) ++ "." ++ padZeros (toString (a % 10 ^ d)) d

/-- JS `x.toFixed(d)`: the scaled integer closest to `x * 10 ^ d`, ties to the
larger integer (ECMA-262 Number.prototype.toFixed). For `x = num / den` this is
`⌊x * 10 ^ d + 1 / 2⌋ = (2 * num * 10 ^ d + den).fdiv (2 * den)`, written with
integer floor division so that it evaluates by kernel reduction. -/
def jsToFixed (q : ℚ) (d : ℕ) : String :=
  decimalString ((2 * q.num * ((10 ^ d : ℕ) : ℤ) + (q.den : ℤ)).fdiv (2 * (q.den : ℤ))) d

/-- Rounding half away from zero (the default `halfExpand` of `toLocaleString`):
`⌊|x| + 1 / 2⌋` carrying the sign, via integer floor division. -/
def jsRoundHalfExpand (q : ℚ) : ℤ :=
  if q < 0 then -((-2 * q.num + (q.den : ℤ)).fdiv (2 * (q.den : ℤ)))
  else (2 * q.num + (q.den : ℤ)).fdiv (2 * (q.den : ℤ))

/-- Split a (reversed) digit list into groups of three. -/
def chunk3 : List Char → List (List Char)
  | [] => []
  | [a] => [[a]]
  | [a, b] => [[a, b]]
  | a :: b :: c :: rest => [a, b, c] :: chunk3 rest

/-- Insert thousands separators into a digit string. -/
def groupDigits (s : String) : String :=
  String.mk (List.intercalate [','] (((chunk3 s.data.reverse).map List.reverse).reverse))

/-- JS `x.toLocaleString(undefined, maximumFractionDigits 0)` in an en-US-style
locale: round to an integer, group digits with commas. -/
def jsToLocaleStringMax0 (q : ℚ) : String :=
  let n := jsRoundHalfExpand q
  (if n < 0 then "-" else "") ++ groupDigits (toString n.natAbs)

/-- JS number-to-string for template interpolation (`${curr}`): integers print
without a point, other finite decimals print their shortest decimal expansion. -/
def jsNumToString (q : ℚ) : String :=
  match (List.range 31).find? (fun k => decide (q.den ∣ 10 ^ k)) with
  | some k => decimalString ((q.num * ((10 ^ k : ℕ) : ℤ)).fdiv (q.den : ℤ)) k
  | none => toString q.num ++ "/" ++ toString q.den

/- ### 3. Indicator tables (`renderIndicatorTable`, atlas.js lines 173-260) -/

/-- A JS indicator `value` field: a number, a two-element numeric array
(the month-over-month pair), a string, `null`, or `undefined`. -/
inductive JsValue where
  | num (q : ℚ)
  | pair (a b : ℚ)
  | str (s : String)
  | null
  | undefined
deriving DecidableEq, Repr

/-- The value-display computation of `renderIndicatorTable`
(atlas.js lines 184-210): the `value === 0.0 || value === null` guard maps the
value to the string `'N/A'`; a two-element array shows the month-over-month
percent change when the previous value is positive and a `(N/A MoM)` fallback
otherwise; numbers format by id (`SPX_INDEX`/`ASX_200` grouped with no
decimals, `FISCAL_RISK` zero decimals, everything else two decimals); anything
else falls to `indicatorValue || 'N/A'`. -/
def formatIndicatorValue (id : String) (value : JsValue) : String :=
  let indicatorValue := if value = JsValue.num 0 ∨ value = JsValue.null
    then JsValue.str "N/A" else value
  match indicatorValue with
  | JsValue.pair prev curr =>
    if prev > 0 then jsToFixed ((curr / prev - 1) * 100) 1 ++ "% MoM"
    else jsNumToString curr ++ " (N/A MoM)"
  | JsValue.num q =>
    if id = "SPX_INDEX" ∨ id = "ASX_200" then jsToLocaleStringMax0 q
    else if id = "FISCAL_RISK" then jsToFixed q 0
    else jsToFixed q 2
  | JsValue.str s => if s = "" then "N/A" else s
  | JsValue.null => "N/A"
  | JsValue.undefined => "N/A"

/-- An indicator record as read from the JSON feed. -/
structure Indicator where
  id : String
  name : String
  status : Option String
  value : JsValue
  note : Option String
  action : Option String
  source_link : Option String
  source : Option String
  url : Option String
deriving DecidableEq, Repr

/-- The note cell of a row: the high-visibility alarm for `N/A`/`ERROR`
statuses, or the normal note with an optional `[Source]` link
(atlas.js lines 213-239). -/
inductive NoteDisplay where
  | alarm (statusUpper note action : String)
  | normal (note action : String) (sourceLink : Option String)
deriving DecidableEq, Repr

/-- One rendered `<tr>` of an indicator table (atlas.js lines 242-257). -/
structure RenderedRow where
  statusDot : String
  name : String
  displayValue : String
  statusBadgeText : String
  badgeClass : String
  note : NoteDisplay
deriving DecidableEq, Repr

/-- Build one table row from an indicator (the `forEach` body,
atlas.js lines 178-258). -/
def mkRow (indicator : Indicator) : RenderedRow :=
  let details := getStatusDetails indicator.status
  let displayValue := formatIndicatorValue indicator.id indicator.value
  let currentStatus := (jsOr indicator.status "").toUpper
  let note :=
    if currentStatus = "N/A" ∨ currentStatus = "ERROR" then
      NoteDisplay.alarm currentStatus (jsStr indicator.note) (jsStr indicator.action)
    else
      let sourceURL := jsOrOpt indicator.source_link (jsOrOpt indicator.source indicator.url)
      let sourceLink :=
        match sourceURL with
        | some u => if u.startsWith "http" then some u else none
        | none => none
      NoteDisplay.normal (jsStr indicator.note) (jsStr indicator.action) sourceLink
  { statusDot := details.icon
    name := indicator.name
    displayValue := displayValue
    statusBadgeText := jsOr indicator.status "N/A"
    badgeClass := details.badge
    note := note }

/-- `renderIndicatorTable` (atlas.js lines 173-260) as a transformation of the
target table body: an absent body returns early; otherwise the body is cleared
(`innerHTML = ''`) and one row per indicator is appended in order. -/
def renderIndicatorTable (tableBody : Option (List RenderedRow))
    (indicators : List Indicator) : Option (List RenderedRow) :=
  match tableBody with
  | none => none
  | some _ =>
    some (indicators.foldl (fun acc indicator => acc ++ [mkRow indicator]) ([] : List RenderedRow))

/- ### 2. Overall status rendering (`renderOverallStatus`, atlas.js lines 119-165) -/

/-- The `overall` record of a Snapshot. -/
structure Overall where
  status : Option String
  score : Option ℚ
  max_score : Option ℚ
  comment : Option String
  composite_summary : Option String
  daily_narrative : Option String
  date : Option String
deriving DecidableEq, Repr

/-- Which of the named DOM mount points used by `renderOverallStatus` exist on
the page. -/
structure DomPresence where
  overallStatusCard : Bool
  narrativeSummaryText : Bool
  triggerSummary : Bool
  triggerDetails : Bool
  lastUpdated : Bool
  footerDate : Bool
deriving DecidableEq, Repr

/-- The content written into the overall status card (atlas.js lines 126-147). -/
structure CardView where
  colorClass : String
  icon : String
  cleanStatus : String
  displayScore : String
  displayMaxScore : String
  comment : String
  compositeSummary : String
deriving DecidableEq, Repr

/-- Everything `renderOverallStatus` writes to the page: the card and the
narrative summary when their elements exist, and the four unconditional
text fields. -/
structure OverallView where
  card : Option CardView
  narrativeSummary : Option String
  triggerSummary : String
  triggerDetails : String
  lastUpdated : String
  footerDate : String
deriving DecidableEq, Repr

/-- `renderOverallStatus` (atlas.js lines 119-165). The card and the narrative
summary are written under a presence guard; the writes to `triggerSummary`,
`triggerDetails`, `lastUpdated` and `footerDate` (lines 159-164) have no guard,
so an absent element there raises a `TypeError` (setting a property of `null`),
modelled as `Except.error`. Reading `overall.status.replace` with an absent
status also raises. -/
def renderOverallStatus (dom : DomPresence) (overall : Overall) : Except String OverallView :=
  let details := getStatusDetails overall.status
  let cardRes : Except String (Option CardView) :=
    if dom.overallStatusCard then
      match overall.status with
      | none => Except.error "TypeError: cannot read replace of undefined"
      | some st =>
        Except.ok (some
          { colorClass :=
              "p-6 mb-8 rounded-xl shadow-2xl border-4 transform transition duration-500 hover:scale-[1.01] hover:shadow-2xl "
                ++ details.color
            icon := details.icon
            cleanStatus := jsTrim (stripEmoji st)
            displayScore := jsToFixed (overall.score.getD 0) 1
            displayMaxScore := jsToFixed (overall.max_score.getD 25) 1
            comment := jsStr overall.comment
            compositeSummary := jsStr overall.composite_summary })
    else Except.ok none
  match cardRes with
  | Except.error e => Except.error e
  | Except.ok card =>
    let narrativeSummary :=
      if dom.narrativeSummaryText then
        some (match overall.daily_narrative with
          | some dn =>
            if dn = "" then jsStr overall.composite_summary
            else (jsSplit "\n\n" dn).headD ""
          | none => jsStr overall.composite_summary)
      else none
    if dom.triggerSummary then
      if dom.triggerDetails then
        if dom.lastUpdated then
          if dom.footerDate then
            Except.ok
              { card := card
                narrativeSummary := narrativeSummary
                triggerSummary := jsStr overall.status
                triggerDetails := jsStr overall.comment
                lastUpdated := "Last Update: " ++ jsStr overall.date
                footerDate := jsStr overall.date }
          else Except.error "TypeError: cannot set textContent of null (footerDate)"
        else Except.error "TypeError: cannot set textContent of null (lastUpdated)"
      else Except.error "TypeError: cannot set textContent of null (triggerDetails)"
    else Except.error "TypeError: cannot set textContent of null (triggerSummary)"

/-- The card written by `renderOverallStatus`, when the render succeeded. -/
def renderedCard (dom : DomPresence) (overall : Overall) : Option CardView :=
  match renderOverallStatus dom overall with
  | Except.ok v => v.card
  | Except.error _ => none

/- ### 4. Narrative page paragraphs (`initializeNarrativePage`, atlas.js line 333) -/

/-- The paragraph blocks of the narrative page: the resolved narrative string is
split on single `'\n'`, blank pieces are dropped, and each piece is trimmed into
its own `<p>` block (atlas.js line 333). -/
def narrativeParagraphs (dailyNarrative : String) : List String :=
  ((jsSplit "\n" dailyNarrative).filter (fun p => jsTrim p ≠ "")).map jsTrim

/- ### 5. Archive page (`renderArchivePosts` / `initializeArchivePage`,
atlas.js lines 360-472) -/

/-- The paragraph blocks of one archive post: split on a blank line (`'\n\n'`)
and trim each piece (atlas.js lines 406-409). -/
def archivePostParagraphs (dailyNarrative : Option String) : List String :=
  (jsSplit "\n\n" (jsOr dailyNarrative "No detailed narrative provided.")).map jsTrim

/-- `POSTS_PER_LOAD` (atlas.js line 85). -/
def POSTS_PER_LOAD : ℕ := 5

/-- The mutable state of the archive page: the fetched posts, the global
`currentPostIndex`, the scroll-listener attachment, the rendered batches (in
order), and the visibility of the loading indicator, the end-of-archive marker
and the empty-archive message. -/
structure ArchiveState (α : Type) where
  allArchivePosts : List α
  currentPostIndex : ℕ
  listenerAttached : Bool
  batches : List (List α)
  loadingVisible : Bool
  endShown : Bool
  emptyShown : Bool
deriving DecidableEq, Repr

/-- `renderArchivePosts(startIndex)` (atlas.js lines 366-425): slice the next
`POSTS_PER_LOAD` posts, hide the loading indicator, show the end marker only
for an empty slice past the start, show the empty-archive message for an empty
slice at index 0, and otherwise append the batch and advance the global index
by `POSTS_PER_LOAD`. -/
def renderArchivePosts (st : ArchiveState α) (startIndex : ℕ) : ArchiveState α :=
  let postsToRender := (st.allArchivePosts.drop startIndex).take POSTS_PER_LOAD
  let st1 := { st with loadingVisible := false }
  if postsToRender.isEmpty ∧ startIndex > 0 then
    { st1 with endShown := true }
  else if postsToRender.isEmpty ∧ startIndex = 0 then
    { st1 with emptyShown := true }
  else
    { st1 with batches := st1.batches ++ [postsToRender]
               currentPostIndex := st1.currentPostIndex + POSTS_PER_LOAD }

/-- `initializeArchivePage` after a successful fetch (atlas.js lines 439-471):
reset the state, render the first batch, and attach the scroll listener. -/
def initArchivePage (posts : List α) : ArchiveState α :=
  let st0 : ArchiveState α :=
    { allArchivePosts := posts, currentPostIndex := 0, listenerAttached := false
      batches := [], loadingVisible := false, endShown := false, emptyShown := false }
  let st1 := renderArchivePosts st0 st0.currentPostIndex
  { st1 with listenerAttached := true }

/-- One scroll event. `nearBottom` models the proximity test
`innerHeight + scrollY >= offsetHeight - 1000`. When the handler is attached
and the test holds, the handler detaches itself; if `currentPostIndex < total`
it shows the loading indicator, renders the next batch after the fixed delay,
and re-attaches itself only if posts remain (atlas.js lines 446-468). -/
def scrollEvent (st : ArchiveState α) (nearBottom : Bool) : ArchiveState α :=
  if ¬ st.listenerAttached then st
  else if ¬ nearBottom then st
  else
    let st1 := { st with listenerAttached := false }
    if st1.currentPostIndex < st1.allArchivePosts.length then
      let st2 := { st1 with loadingVisible := true }
      let st3 := renderArchivePosts st2 st2.currentPostIndex
      if st3.currentPostIndex < st3.allArchivePosts.length then
        { st3 with listenerAttached := true }
      else st3
    else st1

/- ### Helper lemmas about the string primitives -/

/-- Strings with equal character data are equal. -/
theorem str_ext {s₁ s₂ : String} (h : s₁.data = s₂.data) : s₁ = s₂ := by
  have h2 := congrArg String.mk h
  simpa using h2

/-- A string is empty exactly when its character data is. -/
theorem str_empty_iff (s : String) : s = "" ↔ s.data = [] := by
  cases s
  simp [String.ext_iff]

/-- Dropping while a predicate holds ignores a prefix on which it holds. -/
theorem dropWhile_append_all (p : Char → Bool) (w l : List Char)
    (h : ∀ c ∈ w, p c = true) : (w ++ l).dropWhile p = l.dropWhile p := by
  induction w with
  | nil => rfl
  | cons c rest ih =>
    have hc : p c = true := h c (List.mem_cons_self c rest)
    simp only [List.cons_append, List.dropWhile_cons, hc, if_true]
    exact ih (fun x hx => h x (List.mem_cons_of_mem c hx))

/-- When something survives `dropWhile` on `l`, a suffix passes through. -/
theorem dropWhile_append_ne_nil (p : Char → Bool) (l w : List Char)
    (h : l.dropWhile p ≠ []) : (l ++ w).dropWhile p = l.dropWhile p ++ w := by
  induction l with
  | nil => exact absurd rfl h
  | cons c rest ih =>
    by_cases hc : p c = true
    · simp only [List.cons_append, List.dropWhile_cons, hc, if_true]
      simp only [List.dropWhile_cons, hc, if_true] at h
      exact ih h
    · simp [List.dropWhile_cons, hc]

/-- Trimming a list of JS whitespace gives the empty list. -/
theorem jsTrimList_all_ws (l : List Char) (h : ∀ c ∈ l, isJsWhitespace c = true) :
    jsTrimList l = [] := by
  unfold jsTrimList
  rw [List.dropWhile_eq_nil_iff.mpr h]
  rfl

/-- A leading all-whitespace block does not change the trim. -/
theorem jsTrimList_append_left (w l : List Char) (h : ∀ c ∈ w, isJsWhitespace c = true) :
    jsTrimList (w ++ l) = jsTrimList l := by
  unfold jsTrimList
  rw [dropWhile_append_all _ _ _ h]

/-- A trailing all-whitespace block does not change the trim. -/
theorem jsTrimList_append_right (l w : List Char) (h : ∀ c ∈ w, isJsWhitespace c = true) :
    jsTrimList (l ++ w) = jsTrimList l := by
  by_cases hd : l.dropWhile isJsWhitespace = []
  · have hl : ∀ c ∈ l, isJsWhitespace c = true := List.dropWhile_eq_nil_iff.mp hd
    have hlw : ∀ c ∈ l ++ w, isJsWhitespace c = true := by
      intro c hc
      rcases List.mem_append.mp hc with h1 | h2
      · exact hl c h1
      · exact h c h2
    rw [jsTrimList_all_ws _ hlw, jsTrimList_all_ws _ hl]
  · unfold jsTrimList
    rw [dropWhile_append_ne_nil _ _ _ hd, List.reverse_append,
      dropWhile_append_all _ _ _ (fun c hc => h c (List.mem_reverse.mp hc))]

/-- Padding a string with JS whitespace on both sides does not change `jsTrim`. -/
theorem jsTrim_pad (s w1 w2 : String)
    (h1 : ∀ c ∈ w1.data, isJsWhitespace c = true)
    (h2 : ∀ c ∈ w2.data, isJsWhitespace c = true) :
    jsTrim (w1 ++ s ++ w2) = jsTrim s := by
  show String.mk (jsTrimList ((w1.data ++ s.data) ++ w2.data)) = String.mk (jsTrimList s.data)
  rw [jsTrimList_append_right _ _ h2, jsTrimList_append_left _ _ h1]

/-- Fuel irrelevance for the split worker: any two sufficient fuels agree. -/
theorem splitOnListAux_fuel (c0 : Char) (cs : List Char) :
    ∀ f1 : ℕ, ∀ l : List Char, ∀ f2 : ℕ, l.length ≤ f1 → l.length ≤ f2 →
      splitOnListAux c0 cs f1 l = splitOnListAux c0 cs f2 l := by
  intro f1
  induction f1 with
  | zero =>
    intro l f2 h1 _
    have : l = [] := List.eq_nil_of_length_eq_zero (Nat.le_zero.mp h1)
    subst this
    cases f2 <;> rfl
  | succ f ih =>
    intro l f2 h1 h2
    cases l with
    | nil => cases f2 <;> rfl
    | cons c rest =>
      cases f2 with
      | zero => simp at h2
      | succ g =>
        simp only [List.length_cons, Nat.succ_le_succ_iff] at h1 h2
        simp only [splitOnListAux]
        by_cases hp : (c0 :: cs).isPrefixOf (c :: rest) = true
        · have hlen : (rest.drop cs.length).length ≤ f := by
            simp only [List.length_drop]
            omega
          have hlen2 : (rest.drop cs.length).length ≤ g := by
            simp only [List.length_drop]
            omega
          simp only [if_pos hp]
          rw [ih (rest.drop cs.length) g hlen hlen2]
        · simp only [if_neg hp]
          rw [ih rest g h1 h2]

/-- A non-empty separator is a prefix of itself followed by anything. -/
theorem isPrefixOf_append_self (l t : List Char) : l.isPrefixOf (l ++ t) = true := by
  induction l with
  | nil => simp [List.isPrefixOf]
  | cons c rest ih => simp [List.isPrefixOf, ih]

/-- Splitting a list that avoids the first separator character yields the list
as the single group. -/
theorem splitOnListAux_no_sep (c0 : Char) (cs : List Char) :
    ∀ l : List Char, ∀ f : ℕ, l.length ≤ f → c0 ∉ l →
      splitOnListAux c0 cs f l = [l] := by
  intro l
  induction l with
  | nil =>
    intro f _ _
    cases f <;> rfl
  | cons c rest ih =>
    intro f hf hmem
    cases f with
    | zero => simp at hf
    | succ g =>
      have hne : c0 ≠ c := fun h => hmem (h ▸ List.mem_cons_self c rest)
      have hrest : c0 ∉ rest := fun h => hmem (List.mem_cons_of_mem c h)
      have hp : (c0 :: cs).isPrefixOf (c :: rest) = false := by
        simp [List.isPrefixOf, hne]
      simp only [splitOnListAux, hp, Bool.false_eq_true, if_false]
      rw [ih g (by simpa using Nat.le_of_succ_le_succ hf) hrest]

/-- Splitting around one separator occurrence: a prefix free of the separator
character, then the separator, then the rest. -/
theorem splitOnListAux_split (c0 : Char) (cs b : List Char) :
    ∀ a : List Char, ∀ f : ℕ, (a ++ (c0 :: cs) ++ b).length ≤ f → c0 ∉ a →
      splitOnListAux c0 cs f (a ++ (c0 :: cs) ++ b) = a :: splitOnList c0 cs b := by
  intro a
  induction a with
  | nil =>
    intro f hf _
    simp only [List.nil_append] at hf ⊢
    cases f with
    | zero => simp at hf
    | succ g =>
      have hp : (c0 :: cs).isPrefixOf ((c0 :: cs) ++ b) = true := isPrefixOf_append_self _ _
      have hshape : (c0 :: cs) ++ b = c0 :: (cs ++ b) := rfl
      rw [hshape] at hp ⊢
      simp only [splitOnListAux, hp, if_true]
      have hdrop : (cs ++ b).drop cs.length = b := List.drop_left cs b
      rw [hdrop]
      have hg : b.length ≤ g := by
        simp only [List.length_cons, List.length_append] at hf
        omega
      rw [splitOnListAux_fuel c0 cs g b b.length hg le_rfl]
      rfl
  | cons x a' ih =>
    intro f hf hmem
    cases f with
    | zero => simp at hf
    | succ g =>
      have hne : c0 ≠ x := fun h => hmem (h ▸ List.mem_cons_self x a')
      have ha' : c0 ∉ a' := fun h => hmem (List.mem_cons_of_mem x h)
      have hshape : (x :: a') ++ (c0 :: cs) ++ b = x :: (a' ++ (c0 :: cs) ++ b) := rfl
      rw [hshape]
      have hp : (c0 :: cs).isPrefixOf (x :: (a' ++ (c0 :: cs) ++ b)) = false := by
        simp [List.isPrefixOf, hne]
      simp only [splitOnListAux, hp, Bool.false_eq_true, if_false]
      have hg : (a' ++ (c0 :: cs) ++ b).length ≤ g := by
        rw [hshape] at hf
        simpa using Nat.le_of_succ_le_succ hf
      rw [ih g hg ha']

/-- `splitOnList` on a list avoiding the separator head is the singleton group. -/
theorem splitOnList_no_sep (c0 : Char) (cs l : List Char) (h : c0 ∉ l) :
    splitOnList c0 cs l = [l] :=
  splitOnListAux_no_sep c0 cs l l.length le_rfl h

/-- `splitOnList` around one separator occurrence. -/
theorem splitOnList_split_once (c0 : Char) (cs a b : List Char) (h : c0 ∉ a) :
    splitOnList c0 cs (a ++ (c0 :: cs) ++ b) = a :: splitOnList c0 cs b :=
  splitOnListAux_split c0 cs b a _ le_rfl h

/- ### Claim theorems -/

/-- Strings outside the recognized label list fall to the switch default. -/
theorem statusSwitch_not_recognized (t : String) (h : t ∉ recognizedStatusLabels) :
    statusSwitch t = statusSwitchDefault := by
  unfold statusSwitch
  split_ifs with h1 h2 h3 h4 h5 h6 h7
  · subst h1
    exact absurd (by decide) h
  · subst h2
    exact absurd (by decide) h
  · subst h3
    exact absurd (by decide) h
  · subst h4
    exact absurd (by decide) h
  · subst h5
    exact absurd (by decide) h
  · subst h6
    exact absurd (by decide) h
  · subst h7
    exact absurd (by decide) h
  · rfl

/-- C2: for every input that is not a recognized status label (after the
switch's own trimming), and for absent (`null`) or empty input,
`getStatusDetails` returns the default neutral gray tuple; the classifier is a
total Lean function over string-or-null inputs, so it can never throw. -/
theorem getStatusDetails_default_total (o : Option String)
    (h : ∀ s, o = some s → jsTrim s ∉ recognizedStatusLabels) :
    getStatusDetails o = defaultStatusDetails := by
  cases o with
  | none => rfl
  | some s =>
    by_cases hs : s = ""
    · simp [getStatusDetails, hs]
    · simp only [getStatusDetails, if_neg hs]
      exact (statusSwitch_not_recognized (jsTrim s) (h s rfl)).trans rfl

/-- Witness for C2 at the concrete unrecognized input `"BANANAS"`. -/
theorem getStatusDetails_default_total_witness :
    getStatusDetails (some "BANANAS") = defaultStatusDetails :=
  getStatusDetails_default_total (some "BANANAS") (by
    intro s hs
    injection hs with h2
    subst h2
    decide)

/-- C3 counterexample: the switch matches exactly after trimming, so a
case-changed variant of the recognized label `RED`, or the emoji-stripped
variant of the full-storm label, does not map to the same tuple. -/
theorem getStatusDetails_case_sensitive_cx :
    getStatusDetails (some "red") ≠ getStatusDetails (some "RED") ∧
    getStatusDetails (some "FULL-STORM (EXTREME RISK)") ≠
      getStatusDetails (some "🔴 FULL-STORM (EXTREME RISK)") := by decide

/-- C3 (amended): surrounding JS whitespace never changes the classifier's
output, but case-changed or emoji-stripped variants of recognized labels are
not recognized and fall to the default tuple. -/
theorem getStatusDetails_trim_invariant (s w1 w2 : String)
    (h1 : ∀ c ∈ w1.data, isJsWhitespace c = true)
    (h2 : ∀ c ∈ w2.data, isJsWhitespace c = true) :
    getStatusDetails (some (w1 ++ s ++ w2)) = getStatusDetails (some s) ∧
    getStatusDetails (some "red") = statusSwitchDefault ∧
    getStatusDetails (some "FULL-STORM (EXTREME RISK)") = statusSwitchDefault := by
  refine ⟨?_, by decide, by decide⟩
  by_cases hs : s = ""
  · subst hs
    by_cases hw : (w1 ++ "" ++ w2) = ""
    · rw [hw]
    · have hpad : jsTrim (w1 ++ "" ++ w2) = jsTrim "" := jsTrim_pad "" w1 w2 h1 h2
      simp only [getStatusDetails, if_neg hw, hpad]
      decide
  · have hw : (w1 ++ s ++ w2) ≠ "" := by
      intro he
      apply hs
      have hd := (str_empty_iff _).mp he
      have hd2 : (w1.data ++ s.data) ++ w2.data = ([] : List Char) := hd
      rcases List.append_eq_nil.mp hd2 with ⟨hd3, _⟩
      rcases List.append_eq_nil.mp hd3 with ⟨_, hd4⟩
      exact (str_empty_iff s).mpr hd4
    have hpad : jsTrim (w1 ++ s ++ w2) = jsTrim s := jsTrim_pad s w1 w2 h1 h2
    simp only [getStatusDetails, if_neg hw, if_neg hs, hpad]

/-- Witness for C3 at the whitespace-padded label `" RED  "`. -/
theorem getStatusDetails_trim_invariant_witness :
    getStatusDetails (some (" " ++ "RED" ++ "  ")) = getStatusDetails (some "RED") :=
  (getStatusDetails_trim_invariant "RED" " " "  " (by decide) (by decide)).1

/-- C9: a numeric value of exactly 0 (like a `null` value) is displayed as
`N/A` in the value cell, never as a formatted zero, so a zero reading is
indistinguishable from an absent one. -/
theorem zero_value_displays_na (id : String) :
    formatIndicatorValue id (JsValue.num 0) = "N/A" ∧
    formatIndicatorValue id JsValue.null = "N/A" ∧
    formatIndicatorValue id (JsValue.num 0) = formatIndicatorValue id JsValue.null ∧
    jsToFixed 0 2 = "0.00" := by
  refine ⟨?_, ?_, ?_, by decide⟩ <;> simp [formatIndicatorValue]

/-- Appending rows one at a time from an empty body is mapping. -/
theorem foldl_append_map_rows (inds : List Indicator) :
    ∀ acc : List RenderedRow,
      inds.foldl (fun a i => a ++ [mkRow i]) acc = acc ++ inds.map mkRow := by
  induction inds with
  | nil =>
    intro acc
    simp
  | cons i rest ih =>
    intro acc
    simp [List.foldl_cons, ih]

/-- C10: `renderIndicatorTable` clears the table body before appending, so the
rendered rows are exactly one row per indicator, independent of the previous
body content; re-rendering the same list is idempotent and never duplicates. -/
theorem render_table_depends_only_on_list :
    (∀ tb inds, renderIndicatorTable (renderIndicatorTable tb inds) inds
        = renderIndicatorTable tb inds) ∧
    (∀ (rows1 rows2 : List RenderedRow) inds,
        renderIndicatorTable (some rows1) inds = renderIndicatorTable (some rows2) inds) ∧
    (∀ (rows : List RenderedRow) inds,
        renderIndicatorTable (some rows) inds = some (inds.map mkRow)) := by
  have h3 : ∀ (rows : List RenderedRow) inds,
      renderIndicatorTable (some rows) inds = some (inds.map mkRow) := by
    intro rows inds
    simp [renderIndicatorTable, foldl_append_map_rows]
  refine ⟨?_, ?_, h3⟩
  · intro tb inds
    cases tb with
    | none => rfl
    | some rows => rw [h3, h3]
  · intro rows1 rows2 inds
    rw [h3, h3]

/-- C6 counterexample: a `FISCAL_RISK` value of 1234.5 is displayed as `"1235"` —
zero decimal places and ungrouped — not with the two-decimal format the claim
assigns to every id other than the large-magnitude ones (shown at 1234.5, where
the three formats all differ). -/
theorem fiscal_risk_zero_decimals_cx :
    formatIndicatorValue "FISCAL_RISK" (JsValue.num (mkRat 2469 2)) = "1235" ∧
    formatIndicatorValue "FISCAL_RISK" (JsValue.num (mkRat 2469 2)) ≠ jsToFixed (mkRat 2469 2) 2 ∧
    formatIndicatorValue "FISCAL_RISK" (JsValue.num (mkRat 2469 2))
      ≠ jsToLocaleStringMax0 (mkRat 2469 2) := by decide

/-- Reduction of the numeric branch of the value formatter. -/
theorem formatIndicatorValue_num (id : String) (q : ℚ) (hq : q ≠ 0) :
    formatIndicatorValue id (JsValue.num q) =
      (if id = "SPX_INDEX" ∨ id = "ASX_200" then jsToLocaleStringMax0 q
       else if id = "FISCAL_RISK" then jsToFixed q 0 else jsToFixed q 2) := by
  simp [formatIndicatorValue, hq]

/-- C6 (amended): a nonzero numeric value is displayed grouped with no decimals
for the large-magnitude ids `SPX_INDEX`/`ASX_200`, with zero decimals
(ungrouped) for `FISCAL_RISK`, and with exactly two decimals for every other
id; `null`/`undefined` values display `N/A`. -/
theorem numeric_value_display_by_id (id : String) (q : ℚ) (hq : q ≠ 0) :
    (id = "SPX_INDEX" ∨ id = "ASX_200" →
      formatIndicatorValue id (JsValue.num q) = jsToLocaleStringMax0 q) ∧
    (id = "FISCAL_RISK" → formatIndicatorValue id (JsValue.num q) = jsToFixed q 0) ∧
    (id ≠ "SPX_INDEX" → id ≠ "ASX_200" → id ≠ "FISCAL_RISK" →
      formatIndicatorValue id (JsValue.num q) = jsToFixed q 2) ∧
    formatIndicatorValue id JsValue.null = "N/A" ∧
    formatIndicatorValue id JsValue.undefined = "N/A" ∧
    formatIndicatorValue "SPX_INDEX" (JsValue.num 5012) = "5,012" ∧
    formatIndicatorValue "VIX" (JsValue.num (mkRat 15 2)) = "7.50" := by
  refine ⟨?_, ?_, ?_, ?_, ?_, by decide, by decide⟩
  · intro hid
    rw [formatIndicatorValue_num id q hq, if_pos hid]
  · intro hid
    by_cases hsp : id = "SPX_INDEX" ∨ id = "ASX_200"
    · rcases hsp with hsp | hsp <;> (subst hid; simp at hsp)
    · rw [formatIndicatorValue_num id q hq, if_neg hsp, if_pos hid]
  · intro ha hb hc
    rw [formatIndicatorValue_num id q hq, if_neg (not_or.mpr ⟨ha, hb⟩), if_neg hc]
  · simp [formatIndicatorValue]
  · simp [formatIndicatorValue]

/-- Witness for C6 at `VIX` with value 7.5 (generic two-decimal id). -/
theorem numeric_value_display_by_id_witness :
    formatIndicatorValue "VIX" (JsValue.num (mkRat 15 2)) = jsToFixed (mkRat 15 2) 2 ∧
    jsToFixed (mkRat 15 2) 2 = "7.50" :=
  ⟨(numeric_value_display_by_id "VIX" (mkRat 15 2) (by decide)).2.2.1
      (by decide) (by decide) (by decide),
   by decide⟩

/-- C4: a two-element value pair displays the month-over-month percent change
`(curr / prev - 1) * 100` to one decimal with a `% MoM` suffix when the
previous value is positive — `[100, 150]` gives exactly `50.0% MoM` — and for a
zero or negative previous value it takes the division-free fallback branch,
whose output `curr (N/A MoM)` contains `N/A MoM` instead of an infinity. -/
theorem snap_pair_mom_display (id : String) (prev curr : ℚ) :
    (prev > 0 → formatIndicatorValue id (JsValue.pair prev curr)
        = jsToFixed ((curr / prev - 1) * 100) 1 ++ "% MoM") ∧
    (prev ≤ 0 → formatIndicatorValue id (JsValue.pair prev curr)
        = jsNumToString curr ++ " (N/A MoM)") ∧
    formatIndicatorValue id (JsValue.pair 100 150) = "50.0% MoM" ∧
    formatIndicatorValue id (JsValue.pair 0 120) = "120 (N/A MoM)" := by
  refine ⟨?_, ?_, ?_, ?_⟩
  · intro h
    simp [formatIndicatorValue, h]
  · intro h
    have h2 : ¬ prev > 0 := not_lt.mpr h
    simp [formatIndicatorValue, h2]
  · with_unfolding_all rfl
  · with_unfolding_all rfl

/-- Witness for C4 at the spec's own pairs `[100, 150]` and `[0, 120]`. -/
theorem snap_pair_mom_display_witness :
    formatIndicatorValue "SNAP_BENEFITS" (JsValue.pair 100 150)
        = jsToFixed ((150 / 100 - 1) * 100) 1 ++ "% MoM" ∧
    formatIndicatorValue "SNAP_BENEFITS" (JsValue.pair 0 120)
        = jsNumToString 120 ++ " (N/A MoM)" :=
  ⟨(snap_pair_mom_display "SNAP_BENEFITS" 100 150).1 (by norm_num),
   (snap_pair_mom_display "SNAP_BENEFITS" 0 120).2.1 (by norm_num)⟩

/-- C8 counterexample: on the narrative page, the two lines of
`"alpha\nbeta"` — separated by a single newline, no blank line — are rendered
as two separate paragraph blocks, not one. -/
theorem narrative_single_newline_cx :
    narrativeParagraphs "alpha\nbeta" = ["alpha", "beta"] ∧
    (narrativeParagraphs "alpha\nbeta").length ≠ 1 := by decide

/-- C8 (amended): the narrative page splits the narrative on every single
newline (dropping blank-only pieces), so two lines separated by one newline
become separate paragraph blocks there; the archive post renderer splits on
blank-line (`\n\n`) boundaries. -/
theorem narrative_split_behavior (a b : String)
    (hna : '\n' ∉ a.data) (hnb : '\n' ∉ b.data)
    (ha : jsTrim a ≠ "") (hb : jsTrim b ≠ "") :
    narrativeParagraphs (a ++ "\n" ++ b) = [jsTrim a, jsTrim b] ∧
    archivePostParagraphs (some (a ++ "\n\n" ++ b)) = [jsTrim a, jsTrim b] := by
  constructor
  · have hsplit : jsSplit "\n" (a ++ "\n" ++ b) = [a, b] := by
      show (splitOnList '\n' [] (a ++ "\n" ++ b).data).map String.mk = [a, b]
      have hd : (a ++ "\n" ++ b).data = (a.data ++ ('\n' :: [])) ++ b.data := rfl
      rw [hd, splitOnList_split_once '\n' [] a.data b.data hna,
        splitOnList_no_sep '\n' [] b.data hnb]
      rfl
    unfold narrativeParagraphs
    rw [hsplit]
    simp [List.filter_cons, ha, hb]
  · have hne : (a ++ "\n\n" ++ b) ≠ "" := by
      intro he
      have hd := (str_empty_iff _).mp he
      have hd2 : (a.data ++ ('\n' :: '\n' :: [])) ++ b.data = ([] : List Char) := hd
      rcases List.append_eq_nil.mp hd2 with ⟨hd3, _⟩
      rcases List.append_eq_nil.mp hd3 with ⟨_, hd4⟩
      simp at hd4
    have hjsOr : jsOr (some (a ++ "\n\n" ++ b)) "No detailed narrative provided."
        = a ++ "\n\n" ++ b := by
      simp [jsOr, hne]
    have hsplit : jsSplit "\n\n" (a ++ "\n\n" ++ b) = [a, b] := by
      show (splitOnList '\n' ['\n'] (a ++ "\n\n" ++ b).data).map String.mk = [a, b]
      have hd : (a ++ "\n\n" ++ b).data = (a.data ++ ('\n' :: ['\n'])) ++ b.data := rfl
      rw [hd, splitOnList_split_once '\n' ['\n'] a.data b.data hna,
        splitOnList_no_sep '\n' ['\n'] b.data hnb]
      rfl
    unfold archivePostParagraphs
    rw [hjsOr, hsplit]
    rfl

/-- Witness for C8 at the concrete lines `alpha` and `beta`. -/
theorem narrative_split_behavior_witness :
    narrativeParagraphs ("alpha" ++ "\n" ++ "beta") = [jsTrim "alpha", jsTrim "beta"] ∧
    archivePostParagraphs (some ("alpha" ++ "\n\n" ++ "beta"))
        = [jsTrim "alpha", jsTrim "beta"] :=
  narrative_split_behavior "alpha" "beta" (by decide) (by decide) (by decide) (by decide)

/-- C5: a snapshot whose overall record lacks `score` and `max_score` renders
without raising — the nullish-coalescing defaults produce the card texts
`0.0` and `25.0`. -/
theorem missing_score_defaults_render (dom : DomPresence) (o : Overall) (s : String)
    (hc : dom.overallStatusCard = true)
    (h1 : dom.triggerSummary = true) (h2 : dom.triggerDetails = true)
    (h3 : dom.lastUpdated = true) (h4 : dom.footerDate = true)
    (hs : o.status = some s) (hsc : o.score = none) (hms : o.max_score = none) :
    (renderOverallStatus dom o).isOk = true ∧
    (renderedCard dom o).map CardView.displayScore = some "0.0" ∧
    (renderedCard dom o).map CardView.displayMaxScore = some "25.0" := by
  unfold renderedCard renderOverallStatus
  rw [hc, hs, hsc, hms, h1, h2, h3, h4]
  refine ⟨by simp [Except.isOk, Except.toBool], ?_, ?_⟩ <;> simp [Option.getD] <;> decide

/-- Witness for C5 on a full page and a concrete overall record lacking both
score fields. -/
theorem missing_score_defaults_render_witness :
    (renderOverallStatus
        { overallStatusCard := true, narrativeSummaryText := true, triggerSummary := true,
          triggerDetails := true, lastUpdated := true, footerDate := true }
        { status := some "🟢 MONITOR (LOW RISK)", score := none, max_score := none,
          comment := some "calm", composite_summary := some "steady",
          daily_narrative := none, date := some "2025-10-10" }).isOk = true ∧
    (renderedCard
        { overallStatusCard := true, narrativeSummaryText := true, triggerSummary := true,
          triggerDetails := true, lastUpdated := true, footerDate := true }
        { status := some "🟢 MONITOR (LOW RISK)", score := none, max_score := none,
          comment := some "calm", composite_summary := some "steady",
          daily_narrative := none, date := some "2025-10-10" }).map CardView.displayScore
      = some "0.0" ∧
    (renderedCard
        { overallStatusCard := true, narrativeSummaryText := true, triggerSummary := true,
          triggerDetails := true, lastUpdated := true, footerDate := true }
        { status := some "🟢 MONITOR (LOW RISK)", score := none, max_score := none,
          comment := some "calm", composite_summary := some "steady",
          daily_narrative := none, date := some "2025-10-10" }).map CardView.displayMaxScore
      = some "25.0" :=
  missing_score_defaults_render _ _ "🟢 MONITOR (LOW RISK)"
    rfl rfl rfl rfl rfl rfl rfl rfl

/-- C7 counterexample: with every mount point present except `triggerSummary`,
`renderOverallStatus` raises (the write on atlas.js line 159 has no null
guard), so missing mount points are not uniformly skipped. -/
theorem render_overall_missing_mount_throws_cx :
    (renderOverallStatus
        { overallStatusCard := true, narrativeSummaryText := true, triggerSummary := false,
          triggerDetails := true, lastUpdated := true, footerDate := true }
        { status := some "🟢 MONITOR (LOW RISK)", score := some 4, max_score := some 25,
          comment := some "calm", composite_summary := some "steady",
          daily_narrative := none, date := some "2025-10-10" }).isOk = false := by decide

/-- C7 (amended): the status card, narrative summary and table bodies are
guarded — `renderIndicatorTable` is a no-op on an absent body — but the
`triggerSummary`, `triggerDetails`, `lastUpdated` and `footerDate` writes are
unconditional, so `renderOverallStatus` completes exactly when those four
elements exist (given a present status string), and throws whenever
`triggerSummary` is absent. -/
theorem mount_point_guard_policy :
    (∀ inds, renderIndicatorTable none inds = none) ∧
    (∀ (dom : DomPresence) (o : Overall) (s : String), o.status = some s →
      dom.triggerSummary = true → dom.triggerDetails = true →
      dom.lastUpdated = true → dom.footerDate = true →
      (renderOverallStatus dom o).isOk = true) ∧
    (∀ (dom : DomPresence) (o : Overall), dom.triggerSummary = false →
      (renderOverallStatus dom o).isOk = false) := by
  refine ⟨fun inds => rfl, ?_, ?_⟩
  · intro dom o s hs h1 h2 h3 h4
    unfold renderOverallStatus
    rw [hs, h1, h2, h3, h4]
    cases hc : dom.overallStatusCard <;> simp [Except.isOk, Except.toBool]
  · intro dom o h1
    unfold renderOverallStatus
    rw [h1]
    cases hc : dom.overallStatusCard
    · simp [Except.isOk, Except.toBool]
    · cases hst : o.status <;> simp [Except.isOk, Except.toBool]

/-- Witness for C7: the guarded table body skip, a successful render with the
four unguarded mounts present, and the raise when `triggerSummary` is absent. -/
theorem mount_point_guard_policy_witness :
    renderIndicatorTable none [] = none ∧
    (renderOverallStatus
        { overallStatusCard := false, narrativeSummaryText := false, triggerSummary := true,
          triggerDetails := true, lastUpdated := true, footerDate := true }
        { status := some "RED", score := none, max_score := none, comment := none,
          composite_summary := none, daily_narrative := none, date := none }).isOk = true ∧
    (renderOverallStatus
        { overallStatusCard := false, narrativeSummaryText := false, triggerSummary := false,
          triggerDetails := true, lastUpdated := true, footerDate := true }
        { status := some "RED", score := none, max_score := none, comment := none,
          composite_summary := none, daily_narrative := none, date := none }).isOk = false :=
  ⟨mount_point_guard_policy.1 [],
   mount_point_guard_policy.2.1 _ _ "RED" rfl rfl rfl rfl rfl,
   mount_point_guard_policy.2.2 _ _ rfl⟩

/-- The pager state after loading a 12-post archive (posts represented by their
indices 0-11) and then receiving three scroll-proximity events. -/
def archiveRunTwelve : ArchiveState ℕ :=
  scrollEvent (scrollEvent (scrollEvent (initArchivePage (List.range 12)) true) true) true

/-- C1 evaluated on the 12-post archive: the three batches have sizes 5, 5 and
2 and partition the posts in order with no repetition; after the final batch
the global index is 15 so the listener is not re-attached (the pager is
terminally exhausted, and a further scroll event changes nothing) — but the
end-of-archive marker is never shown: the guarded call that would reveal it
can no longer run. -/
theorem archive_pager_twelve_posts :
    archiveRunTwelve.batches = [[0, 1, 2, 3, 4], [5, 6, 7, 8, 9], [10, 11]] ∧
    archiveRunTwelve.currentPostIndex = 15 ∧
    archiveRunTwelve.listenerAttached = false ∧
    scrollEvent archiveRunTwelve true = archiveRunTwelve ∧
    archiveRunTwelve.endShown = false := by decide
